import Mathlib

/-!
Verification of the Activity Tracking Engine of the WFH Inactivity Detection
System (`src/app.py`), a Streamlit app keeping all session data in a mutable
session store.  The engine is embedded shallowly:

* Wall-clock instants and durations (Python floats from `time.time()`) are
  modelled as rationals `ℚ`; every operation takes the current time as an
  explicit argument.
* The Streamlit session store becomes an explicit `EngineState` record; each
  engine function maps a state to a new state.
* Python truthiness of `st.session_state.last_interaction_time` (an optional
  float) is modelled exactly: `None` and `0.0` are falsy, everything else
  truthy (`pyTruthy`).
* `datetime.now().strftime(...)` timestamps are abstracted to the raw
  wall-clock instant; the formatted `gap` strings are kept, via a faithful
  embedding of `format_time`.
-/

namespace WFH

/-- `ACTIVE_THRESHOLD = 60` from `src/app.py` line 17. -/
def ACTIVE_THRESHOLD : ℚ := 60

/-- `SHORT_BREAK_THRESHOLD = 300` from `src/app.py` line 18. -/
def SHORT_BREAK_THRESHOLD : ℚ := 300

/-- Python `f"{n:02d}"`: left-pad a non-negative single digit with `0`. -/
def fmt2 (n : ℤ) : String :=
  if 0 ≤ n ∧ n < 10 then "0" ++ toString n else toString n

/-- Python float `x % y`: `x - y * (x // y)` where `//` is floor division. -/
def pymod (x y : ℚ) : ℚ := x - y * ((x / y).floor : ℚ)

/-- `format_time` from `src/app.py` lines 38-51: seconds to `HH:MM:SS`.
`hours = int(seconds // 3600)`, `minutes = int((seconds % 3600) // 60)`,
`secs = int(seconds % 60)`; the Python `int(...)` coercions are floors here
because float `%` with a positive divisor is non-negative. -/
def format_time (seconds : ℚ) : String :=
  let hours : ℤ := (seconds / 3600).floor
  let minutes : ℤ := ((pymod seconds 3600) / 60).floor
  let secs : ℤ := ((pymod seconds 60)).floor
  fmt2 hours ++ ":" ++ fmt2 minutes ++ ":" ++ fmt2 secs

/-- `get_activity_status` from `src/app.py` lines 54-69: classify a gap,
returning `(status_text, status_color, emoji)`. -/
def get_activity_status (inactive_seconds : ℚ) : String × String × String :=
  if inactive_seconds < ACTIVE_THRESHOLD then
    ("Active", "green", "🟢")
  else if inactive_seconds < SHORT_BREAK_THRESHOLD then
    ("Short Break", "orange", "🟡")
  else
    ("Extended Inactivity", "red", "🔴")

/-- One entry of `st.session_state.activity_log`: a dict with keys
`timestamp`, `action`, `status`, and (absent on the session-start entry)
`gap`.  The `timestamp` is abstracted to the wall-clock instant. -/
structure LogEntry where
  timestamp : ℚ
  action : String
  status : String
  gap : Option String
deriving DecidableEq, Repr

/-- The engine state: the session-related fields of `st.session_state`,
in the order they are initialised in `src/app.py` lines 25-32. -/
structure EngineState where
  session_started : Bool
  session_start_time : Option ℚ
  last_interaction_time : Option ℚ
  total_active_time : ℚ
  total_inactive_time : ℚ
  interaction_count : Nat
  activity_log : List LogEntry
deriving DecidableEq, Repr

/-- First-run initialisation (`src/app.py` lines 25-32). -/
def initState : EngineState :=
  { session_started := false
    session_start_time := none
    last_interaction_time := none
    total_active_time := 0
    total_inactive_time := 0
    interaction_count := 0
    activity_log := [] }

/-- Python truthiness of the optional float `last_interaction_time`:
`None` is falsy and so is `0.0`. -/
def pyTruthy : Option ℚ → Bool
  | none => false
  | some x => decide (x ≠ 0)

/-- `start_work_session` from `src/app.py` lines 72-88, with the current
wall-clock time passed explicitly.  Unconditionally resets every field. -/
def start_work_session (current_time : ℚ) (_s : EngineState) : EngineState :=
  { session_started := true
    session_start_time := some current_time
    last_interaction_time := some current_time
    total_active_time := 0
    total_inactive_time := 0
    interaction_count := 1
    activity_log := [{ timestamp := current_time
                       action := "Session Started"
                       status := "Active"
                       gap := none }] }

/-- `end_work_session` from `src/app.py` lines 91-98. -/
def end_work_session (s : EngineState) : EngineState :=
  { s with
    session_started := false
    session_start_time := none
    last_interaction_time := none }

/-- `register_interaction` from `src/app.py` lines 101-135.  The guard
`if st.session_state.last_interaction_time:` is Python truthiness
(`pyTruthy`); the trailing updates of `last_interaction_time` and
`interaction_count` run unconditionally, mirroring lines 134-135. -/
def register_interaction (current_time : ℚ) (action_description : String)
    (s : EngineState) : EngineState :=
  let s1 :=
    if pyTruthy s.last_interaction_time then
      let time_gap := current_time - s.last_interaction_time.getD 0
      if time_gap < ACTIVE_THRESHOLD then
        { s with
          total_active_time := s.total_active_time + time_gap
          activity_log := s.activity_log ++
            [{ timestamp := current_time, action := action_description
               status := "Active", gap := some (format_time time_gap) }] }
      else if time_gap < SHORT_BREAK_THRESHOLD then
        { s with
          total_inactive_time := s.total_inactive_time + time_gap
          activity_log := s.activity_log ++
            [{ timestamp := current_time, action := action_description
               status := "Short Break", gap := some (format_time time_gap) }] }
      else
        { s with
          total_inactive_time := s.total_inactive_time + time_gap
          activity_log := s.activity_log ++
            [{ timestamp := current_time, action := action_description
               status := "Extended Inactivity"
               gap := some (format_time time_gap) }] }
    else s
  { s1 with
    last_interaction_time := some current_time
    interaction_count := s1.interaction_count + 1 }

/-- The productivity computation from `src/app.py` lines 257-261:
`(total_active_time / total_session_time) * 100` when
`total_session_time > 0`, else `0`. -/
def productivity (total_active_time total_session_time : ℚ) : ℚ :=
  if total_session_time > 0 then (total_active_time / total_session_time) * 100
  else 0

/-- Python list slice `l[-n:]`, as used on the activity log in `src/app.py`
line 345 (there with the literal `n = 15`).  For `n ≥ 1` it is the suffix of
the last `n` elements (all of them when fewer exist); for `n = 0` Python's
`-0 == 0` makes the slice `l[0:]`, the whole list. -/
def pySliceLast {α : Type} (n : Nat) (l : List α) : List α :=
  if n = 0 then l else l.drop (l.length - n)

/-- The recent-log view from `src/app.py` line 345,
`activity_log[-limit:][::-1]`, generalising the source's literal 15 to a
`limit` parameter as the spec's `RecentLog(limit)` does. -/
def recent_logs (limit : Nat) (log : List LogEntry) : List LogEntry :=
  (pySliceLast limit log).reverse

/-- A sample log entry, for concrete instantiations. -/
def sampleEntry (t : ℚ) (a : String) : LogEntry :=
  { timestamp := t, action := a, status := "Active", gap := none }

/-- A sample three-entry log, for concrete instantiations. -/
def sampleLog : List LogEntry :=
  [sampleEntry 1 "a", sampleEntry 2 "b", sampleEntry 3 "c"]

/-- One UI-driven interaction event: the wall-clock time at which the
interaction happens and its action description. -/
def step (s : EngineState) (e : ℚ × String) : EngineState :=
  register_interaction e.1 e.2 s

/-- A whole session run: `start_work_session` at `t0`, then the given
interaction events in order. -/
def runSession (t0 : ℚ) (events : List (ℚ × String)) : EngineState :=
  events.foldl step (start_work_session t0 initState)

/-- The gaps between consecutive interaction times, starting from the
session start `t0`: for times `[t1, t2, ...]` these are
`[t1 - t0, t2 - t1, ...]`. -/
def gapsFrom (t0 : ℚ) : List ℚ → List ℚ
  | [] => []
  | t :: ts => (t - t0) :: gapsFrom t ts

/-! ### Helper lemmas about the classifier -/

lemma status_fst_eq_active_iff (g : ℚ) :
    (get_activity_status g).1 = "Active" ↔ g < 60 := by
  unfold get_activity_status ACTIVE_THRESHOLD SHORT_BREAK_THRESHOLD
  split_ifs with h1 h2 <;> simp_all

lemma status_fst_eq_short_break_iff (g : ℚ) :
    (get_activity_status g).1 = "Short Break" ↔ 60 ≤ g ∧ g < 300 := by
  unfold get_activity_status ACTIVE_THRESHOLD SHORT_BREAK_THRESHOLD
  split_ifs with h1 h2 <;> simp_all

lemma status_fst_eq_extended_iff (g : ℚ) :
    (get_activity_status g).1 = "Extended Inactivity" ↔ 300 ≤ g := by
  unfold get_activity_status ACTIVE_THRESHOLD SHORT_BREAK_THRESHOLD
  split_ifs with h1 h2 <;> simp_all
  linarith

/-! ### Claims -/

/-- Claim C1: for every gap value `g`, `get_activity_status` returns
Active iff `g < 60`, Short Break iff `60 ≤ g < 300`, and Extended
Inactivity iff `g ≥ 300`; in particular `g = 60` yields Short Break and
`g = 300` yields Extended Inactivity. -/
theorem gap_classifier_boundaries (g : ℚ) :
    ((get_activity_status g).1 = "Active" ↔ g < 60) ∧
    ((get_activity_status g).1 = "Short Break" ↔ 60 ≤ g ∧ g < 300) ∧
    ((get_activity_status g).1 = "Extended Inactivity" ↔ 300 ≤ g) ∧
    (get_activity_status 60).1 = "Short Break" ∧
    (get_activity_status 300).1 = "Extended Inactivity" := by
  refine ⟨status_fst_eq_active_iff g, status_fst_eq_short_break_iff g,
    status_fst_eq_extended_iff g, ?_, ?_⟩
  · exact (status_fst_eq_short_break_iff 60).mpr (by norm_num)
  · exact (status_fst_eq_extended_iff 300).mpr (by norm_num)

/-- Claim C5: from every prior state, `start_work_session` produces the
fully reset state: session Active, both accumulators zero,
`interaction_count = 1`, start and last-interaction time both `now`, and a
one-entry log whose entry is `Session Started` with status Active (and no
gap field).  No carryover from the prior state. -/
theorem start_session_resets (t : ℚ) (s : EngineState) :
    start_work_session t s =
      { session_started := true
        session_start_time := some t
        last_interaction_time := some t
        total_active_time := 0
        total_inactive_time := 0
        interaction_count := 1
        activity_log := [{ timestamp := t, action := "Session Started"
                           status := "Active", gap := none }] } := rfl

/-- Claim C6: `end_work_session` makes the session not-active and clears
`session_start_time` and `last_interaction_time`, while leaving both
accumulators, the interaction count and the activity log unchanged; it is a
total function (never fails). -/
theorem end_session_frame (s : EngineState) :
    (end_work_session s).session_started = false ∧
    (end_work_session s).session_start_time = none ∧
    (end_work_session s).last_interaction_time = none ∧
    (end_work_session s).total_active_time = s.total_active_time ∧
    (end_work_session s).total_inactive_time = s.total_inactive_time ∧
    (end_work_session s).interaction_count = s.interaction_count ∧
    (end_work_session s).activity_log = s.activity_log :=
  ⟨rfl, rfl, rfl, rfl, rfl, rfl, rfl⟩

/-- Claim C7: the productivity computation equals
`100 * totalActiveTime / totalSessionTime` when the session time is
positive and is `0` when the session time is `0`: the guarded branch means
the division-by-zero case is never reached. -/
theorem productivity_spec (a t : ℚ) :
    (0 < t → productivity a t = 100 * a / t) ∧
    (t = 0 → productivity a t = 0) := by
  constructor
  · intro h
    unfold productivity
    rw [if_pos h]
    ring
  · intro h
    unfold productivity
    rw [h]
    norm_num

/-- Witness for C7 at concrete inputs. -/
theorem productivity_spec_witness :
    productivity 5 10 = 100 * 5 / 10 ∧ productivity 5 0 = 0 :=
  ⟨(productivity_spec 5 10).1 (by norm_num), (productivity_spec 5 0).2 rfl⟩

/-- Claim C10: `get_activity_status` is total over all rational gap values;
for every negative gap it returns `("Active", "green", "🟢")`, because the
first branch's test `inactive_seconds < 60` already covers negative
inputs — no clamping, no failure. -/
theorem negative_gap_active (g : ℚ) (h : g < 0) :
    get_activity_status g = ("Active", "green", "🟢") := by
  unfold get_activity_status ACTIVE_THRESHOLD
  rw [if_pos (by linarith)]

/-- Witness for C10 at the concrete gap `-1`. -/
theorem negative_gap_active_witness :
    get_activity_status (-1) = ("Active", "green", "🟢") :=
  negative_gap_active (-1) (by norm_num)

/-! ### Helper lemmas about `register_interaction` -/

lemma register_eq (s : EngineState) (tl t : ℚ) (a : String)
    (h : s.last_interaction_time = some tl) (h0 : tl ≠ 0) :
    register_interaction t a s =
      { s with
        total_active_time :=
          s.total_active_time + (if t - tl < 60 then t - tl else 0)
        total_inactive_time :=
          s.total_inactive_time + (if t - tl < 60 then 0 else t - tl)
        activity_log := s.activity_log ++
          [{ timestamp := t, action := a
             status := (get_activity_status (t - tl)).1
             gap := some (format_time (t - tl)) }]
        last_interaction_time := some t
        interaction_count := s.interaction_count + 1 } := by
  unfold register_interaction
  rw [h]
  have htr : pyTruthy (some tl) = true := by simp [pyTruthy, h0]
  rw [htr]
  unfold get_activity_status ACTIVE_THRESHOLD SHORT_BREAK_THRESHOLD
  simp only [if_true, Option.getD_some]
  split_ifs with h1 h2 <;> simp

lemma register_skip (s : EngineState) (t : ℚ) (a : String)
    (h : pyTruthy s.last_interaction_time = false) :
    register_interaction t a s =
      { s with
        last_interaction_time := some t
        interaction_count := s.interaction_count + 1 } := by
  unfold register_interaction
  rw [h]
  simp

lemma sum_filter_add_sum_filter_neg (p : ℚ → Bool) (gs : List ℚ) :
    (gs.filter p).sum + (gs.filter (fun g => !p g)).sum = gs.sum := by
  induction gs with
  | nil => simp
  | cons g gs ih =>
      by_cases hg : p g <;> simp [List.filter_cons, hg] <;> linarith [ih]

/-- Accounting over a fold of interaction events: provided every involved
timestamp is non-zero (so the Python truthiness guard passes), each event
commits its gap to exactly one accumulator, split by the 60-second test. -/
lemma foldl_acct (events : List (ℚ × String)) :
    ∀ (s : EngineState) (tl : ℚ),
      s.last_interaction_time = some tl → tl ≠ 0 →
      (∀ e ∈ events, e.1 ≠ 0) →
      (events.foldl step s).total_active_time =
        s.total_active_time +
          ((gapsFrom tl (events.map Prod.fst)).filter
            (fun g => decide (g < 60))).sum ∧
      (events.foldl step s).total_inactive_time =
        s.total_inactive_time +
          ((gapsFrom tl (events.map Prod.fst)).filter
            (fun g => !decide (g < 60))).sum := by
  induction events with
  | nil => intro s tl _ _ _; simp [gapsFrom]
  | cons e es ih =>
      intro s tl h h0 hall
      have ht : e.1 ≠ 0 := hall e (List.mem_cons_self _ _)
      have hreg := register_eq s tl e.1 e.2 h h0
      have hlast : (register_interaction e.1 e.2 s).last_interaction_time =
          some e.1 := by rw [hreg]
      have ihh := ih (register_interaction e.1 e.2 s) e.1 hlast ht
        (fun e' he' => hall e' (List.mem_cons_of_mem _ he'))
      have hstep : step s e = register_interaction e.1 e.2 s := rfl
      rw [List.foldl_cons, hstep]
      rcases ihh with ⟨ih1, ih2⟩
      rw [ih1, ih2, hreg]
      simp only [List.map_cons, gapsFrom, List.filter_cons]
      constructor <;> split_ifs <;> (try simp_all) <;> linarith

/-! ### Remaining claims -/

/-- Claim C2 (confirmed under non-zero wall-clock times, since the source
guard `if st.session_state.last_interaction_time:` treats the timestamp
`0.0` like `None`): after any sequence of `register_interaction` calls on a
freshly started session, `total_active_time + total_inactive_time` equals
the sum of all committed gaps (the gaps between consecutive interactions,
the still-open gap excluded), each committed gap landing in exactly one of
the two accumulators according to its classification. -/
theorem accounting_invariant (t0 : ℚ) (events : List (ℚ × String))
    (h0 : t0 ≠ 0) (hall : ∀ e ∈ events, e.1 ≠ 0) :
    (runSession t0 events).total_active_time +
        (runSession t0 events).total_inactive_time =
      (gapsFrom t0 (events.map Prod.fst)).sum ∧
    (runSession t0 events).total_active_time =
      ((gapsFrom t0 (events.map Prod.fst)).filter
        (fun g => (get_activity_status g).1 == "Active")).sum ∧
    (runSession t0 events).total_inactive_time =
      ((gapsFrom t0 (events.map Prod.fst)).filter
        (fun g => !((get_activity_status g).1 == "Active"))).sum := by
  have hstart : (start_work_session t0 initState).last_interaction_time =
      some t0 := rfl
  have hacct := foldl_acct events (start_work_session t0 initState) t0
    hstart h0 hall
  have hfun : (fun g : ℚ => (get_activity_status g).1 == "Active") =
      (fun g : ℚ => decide (g < 60)) := by
    funext g
    rw [Bool.eq_iff_iff]
    simp [status_fst_eq_active_iff]
  have hfun2 : (fun g : ℚ => !((get_activity_status g).1 == "Active")) =
      (fun g : ℚ => !decide (g < 60)) := by
    funext g
    rw [congrFun hfun g]
  have hrun : runSession t0 events =
      events.foldl step (start_work_session t0 initState) := rfl
  rcases hacct with ⟨h1, h2⟩
  have hz : (start_work_session t0 initState).total_active_time = 0 := rfl
  have hz' : (start_work_session t0 initState).total_inactive_time = 0 := rfl
  rw [hz, zero_add] at h1
  rw [hz', zero_add] at h2
  refine ⟨?_, ?_, ?_⟩
  · rw [hrun, h1, h2]
    exact sum_filter_add_sum_filter_neg _ _
  · rw [hrun, h1, hfun]
  · rw [hrun, h2, hfun2]

/-- Witness for C2: start at `t0 = 10` with interactions at `40` (gap 30,
Active) and `300` (gap 260, Short Break). -/
theorem accounting_invariant_witness :
    (runSession 10 [(40, "a"), (300, "b")]).total_active_time +
        (runSession 10 [(40, "a"), (300, "b")]).total_inactive_time =
      (gapsFrom 10 ([(40, "a"), (300, "b")].map Prod.fst)).sum ∧
    (runSession 10 [(40, "a"), (300, "b")]).total_active_time =
      ((gapsFrom 10 ([(40, "a"), (300, "b")].map Prod.fst)).filter
        (fun g => (get_activity_status g).1 == "Active")).sum ∧
    (runSession 10 [(40, "a"), (300, "b")]).total_inactive_time =
      ((gapsFrom 10 ([(40, "a"), (300, "b")].map Prod.fst)).filter
        (fun g => !((get_activity_status g).1 == "Active"))).sum :=
  accounting_invariant 10 [(40, "a"), (300, "b")] (by norm_num) (by decide)

/-- Counterexample to Claim C3: on the state left by `end_work_session`
(session not active), `register_interaction` is NOT a no-op — it still
increments `interaction_count` (and sets `last_interaction_time`),
because the source's lines 134-135 run unconditionally. -/
theorem register_when_inactive_not_noop :
    register_interaction 200 "Quick Check-in"
        (end_work_session (start_work_session 100 initState)) ≠
      end_work_session (start_work_session 100 initState) ∧
    (register_interaction 200 "Quick Check-in"
        (end_work_session (start_work_session 100 initState))).interaction_count
      = 2 ∧
    (end_work_session (start_work_session 100 initState)).interaction_count
      = 1 := by
  have h := register_skip (end_work_session (start_work_session 100 initState))
    200 "Quick Check-in" rfl
  refine ⟨?_, ?_, rfl⟩
  · intro hcontra
    have hc := congrArg EngineState.interaction_count hcontra
    rw [h] at hc
    exact absurd hc (by decide)
  · rw [h]
    rfl

/-- Claim C3 as amended: after `end_work_session`, `register_interaction`
skips the gap block, leaving both accumulators and the activity log
unchanged, but it still sets `last_interaction_time` to the current time
and increments `interaction_count`; it is not a complete no-op. -/
theorem register_after_end (s : EngineState) (t : ℚ) (a : String) :
    register_interaction t a (end_work_session s) =
      { end_work_session s with
        last_interaction_time := some t
        interaction_count := s.interaction_count + 1 } :=
  register_skip (end_work_session s) t a rfl

/-- Claim C4, evaluated at the failing input: running Scenario A literally
(start at `t = 0`, interactions at `t = 30, 280, 680`) yields
`total_active_time = 0`, `total_inactive_time = 650`,
`interaction_count = 4` and a 3-entry log — not the claimed
`total_active_time = 30` and 4-entry log, because with
`last_interaction_time = 0.0` the guard
`if st.session_state.last_interaction_time:` is falsy and the first gap
(30 s, Active) is never committed nor logged. -/
theorem scenarioA_from_time_zero :
    (runSession 0 [(30, "task1"), (280, "task2"), (680, "task3")]).total_active_time
      = 0 ∧
    (runSession 0 [(30, "task1"), (280, "task2"), (680, "task3")]).total_inactive_time
      = 650 ∧
    (runSession 0 [(30, "task1"), (280, "task2"), (680, "task3")]).interaction_count
      = 4 ∧
    (runSession 0 [(30, "task1"), (280, "task2"), (680, "task3")]).activity_log.length
      = 3 := by
  have hskip : pyTruthy
      (start_work_session 0 initState).last_interaction_time = false := by
    simp [start_work_session, pyTruthy]
  have h1 := register_skip (start_work_session 0 initState) 30 "task1" hskip
  have hA : (register_interaction 30 "task1"
      (start_work_session 0 initState)).last_interaction_time = some 30 := by
    rw [h1]
  have h2 := register_eq (register_interaction 30 "task1"
    (start_work_session 0 initState)) 30 280 "task2" hA (by norm_num)
  have hB : (register_interaction 280 "task2" (register_interaction 30 "task1"
      (start_work_session 0 initState))).last_interaction_time = some 280 := by
    rw [h2]
  have h3 := register_eq (register_interaction 280 "task2"
    (register_interaction 30 "task1" (start_work_session 0 initState)))
    280 680 "task3" hB (by norm_num)
  have hlt : ¬ ((280 : ℚ) - 30 < 60) := by norm_num
  have hlt' : ¬ ((680 : ℚ) - 280 < 60) := by norm_num
  have a1 : (register_interaction 30 "task1"
      (start_work_session 0 initState)).total_active_time = 0 := by
    rw [h1]; rfl
  have i1 : (register_interaction 30 "task1"
      (start_work_session 0 initState)).total_inactive_time = 0 := by
    rw [h1]; rfl
  have c1 : (register_interaction 30 "task1"
      (start_work_session 0 initState)).interaction_count = 2 := by
    rw [h1]; rfl
  have l1 : (register_interaction 30 "task1"
      (start_work_session 0 initState)).activity_log.length = 1 := by
    rw [h1]; rfl
  have a2 : (register_interaction 280 "task2" (register_interaction 30 "task1"
      (start_work_session 0 initState))).total_active_time = 0 := by
    rw [h2, if_neg hlt, if_neg hlt]
    norm_num [a1]
  have i2 : (register_interaction 280 "task2" (register_interaction 30 "task1"
      (start_work_session 0 initState))).total_inactive_time = 250 := by
    rw [h2, if_neg hlt, if_neg hlt]
    norm_num [i1]
  have c2 : (register_interaction 280 "task2" (register_interaction 30 "task1"
      (start_work_session 0 initState))).interaction_count = 3 := by
    rw [h2]
    norm_num [c1]
  have l2 : (register_interaction 280 "task2" (register_interaction 30 "task1"
      (start_work_session 0 initState))).activity_log.length = 2 := by
    rw [h2]
    norm_num [l1]
  have a3 : (register_interaction 680 "task3" (register_interaction 280 "task2"
      (register_interaction 30 "task1"
        (start_work_session 0 initState)))).total_active_time = 0 := by
    rw [h3, if_neg hlt', if_neg hlt']
    norm_num [a2]
  have i3 : (register_interaction 680 "task3" (register_interaction 280 "task2"
      (register_interaction 30 "task1"
        (start_work_session 0 initState)))).total_inactive_time = 650 := by
    rw [h3, if_neg hlt', if_neg hlt']
    norm_num [i2]
  have c3 : (register_interaction 680 "task3" (register_interaction 280 "task2"
      (register_interaction 30 "task1"
        (start_work_session 0 initState)))).interaction_count = 4 := by
    rw [h3]
    norm_num [c2]
  have l3 : (register_interaction 680 "task3" (register_interaction 280 "task2"
      (register_interaction 30 "task1"
        (start_work_session 0 initState)))).activity_log.length = 3 := by
    rw [h3]
    norm_num [l2]
  exact ⟨a3, i3, c3, l3⟩

/-- Counterexample to Claim C8 at `limit = 0`: Python's `log[-0:]` is the
whole list, so `recent_logs 0` on a one-entry log returns one entry,
exceeding the limit. -/
theorem recent_logs_zero_limit :
    ¬ (recent_logs 0 [sampleEntry 0 "x"]).length ≤ 0 := by
  decide

/-- Claim C8 as amended (restricted to `limit ≥ 1`, the only values the
idiom `log[-limit:][::-1]` supports; the source always uses 15):
`recent_logs` returns the most recent entries in reverse chronological
order — its reverse is a suffix of the log — with length
`min limit (length log)`, hence never exceeding the limit nor the log
length, and returns the whole log reversed when fewer than `limit` entries
exist.  It is a pure function of the log, so the log is not modified. -/
theorem recent_logs_spec (n : Nat) (log : List LogEntry) (h : 1 ≤ n) :
    (recent_logs n log).length = min n log.length ∧
    List.IsSuffix ((recent_logs n log).reverse) log ∧
    (log.length ≤ n → recent_logs n log = log.reverse) := by
  have hn : n ≠ 0 := by omega
  unfold recent_logs pySliceLast
  rw [if_neg hn]
  refine ⟨?_, ?_, ?_⟩
  · rw [List.length_reverse, List.length_drop]
    omega
  · rw [List.reverse_reverse]
    exact ⟨log.take (log.length - n), List.take_append_drop _ log⟩
  · intro hlen
    have hz : log.length - n = 0 := by omega
    rw [hz, List.drop_zero]

/-- Witness for C8 (amended) at `limit = 2` on a three-entry log. -/
theorem recent_logs_spec_witness :
    (recent_logs 2 sampleLog).length = min 2 sampleLog.length ∧
    List.IsSuffix ((recent_logs 2 sampleLog).reverse) sampleLog ∧
    (sampleLog.length ≤ 2 → recent_logs 2 sampleLog = sampleLog.reverse) :=
  recent_logs_spec 2 sampleLog (by norm_num)

/-- Claim C9 (confirmed under a non-zero last-interaction timestamp, which
is what the source's truthiness guard requires): on an active session,
`register_interaction` appends exactly one entry at the end of the log —
carrying the action, the status of the classified gap, and a formatted
`gap` field — modifying and removing nothing; and the session-start entry
produced by `start_work_session` never has a gap field. -/
theorem log_append_only (s : EngineState) (t : ℚ) (a : String) (x : ℚ)
    (h : s.last_interaction_time = some x) (hx : x ≠ 0) :
    (register_interaction t a s).activity_log =
      s.activity_log ++
        [{ timestamp := t, action := a
           status := (get_activity_status (t - x)).1
           gap := some (format_time (t - x)) }] ∧
    ∀ e ∈ (start_work_session t s).activity_log, e.gap = none := by
  constructor
  · rw [register_eq s x t a h hx]
  · intro e he
    simp only [start_work_session, List.mem_singleton] at he
    rw [he]

/-- Witness for C9: a session started at `t = 5`, interaction at `t = 20`. -/
theorem log_append_only_witness :
    (register_interaction 20 "w" (start_work_session 5 initState)).activity_log =
      (start_work_session 5 initState).activity_log ++
        [{ timestamp := 20, action := "w"
           status := (get_activity_status (20 - 5)).1
           gap := some (format_time (20 - 5)) }] ∧
    ∀ e ∈ (start_work_session 20 (start_work_session 5 initState)).activity_log,
      e.gap = none :=
  log_append_only (start_work_session 5 initState) 20 "w" 5 rfl (by norm_num)

end WFH
